import Mathlib

/-!
Verification development for the api-notify outbound-webhook dispatcher.

The Go sources are embedded shallowly:
  * Go strings are modelled as `List Char` (`Str`); the repository only
    manipulates ASCII header names, URLs and status labels, where Go byte
    indexing and Lean character indexing coincide.
  * Timestamps, durations (nanoseconds) and random samples are `Int`.
    Every division and modulus in scope is applied to non-negative
    operands, where Go truncating division/remainder and Lean euclidean
    division/modulus agree.
  * The two MySQL tables are a `Store` record of row lists; each SQL
    statement of `internal/store` becomes a pure state transformer that
    mirrors the statement WHERE/SET/ORDER BY/LIMIT clauses.
  * External effects (the JSON decoder, the HTTP transport, the clock,
    `time.Now().UnixNano()`) are passed in as explicit parameters.
-/

namespace ApiNotify

/-- Go strings, modelled as character lists. -/
abbrev Str := List Char

/-- Conversion from Lean string literals to the model string type. -/
def str (s : String) : Str := s.data

/-- Task states, from `core.TaskStatus` (internal/core/models.go). -/
inductive TaskStatus where
  | pending
  | running
  | succeeded
  | failed
  | cancelled
  | dead
  deriving DecidableEq

/-- Attempt states, from `core.AttemptStatus` (internal/core/models.go). -/
inductive AttemptStatus where
  | pending
  | sent
  | success
  | failed
  deriving DecidableEq

/-- One row of `notification_tasks`, from `core.NotificationTask`. -/
structure NotificationTask where
  id : Nat
  taskId : Str
  partnerId : Str
  targetURL : Str
  httpMethod : Str
  headers : Str
  body : Str
  idempotencyKey : Str
  priority : Int
  status : TaskStatus
  nextAttemptAt : Int
  maxAttempts : Nat
  attemptCount : Nat
  successCondition : Str
  createdAt : Int
  updatedAt : Int
  deriving DecidableEq

/-- One row of `notification_attempts`, with the columns written by
`Store.RecordAttempt` (task_id, attempt_no, status, http_status_code,
error_code, error_message, latency_ms, created_at). -/
structure NotificationAttempt where
  taskId : Str
  attemptNo : Nat
  status : AttemptStatus
  httpStatusCode : Nat
  errorCode : Str
  errorMessage : Str
  latencyMs : Int
  createdAt : Int
  deriving DecidableEq

/-- The relational store: both tables of the persisted schema. -/
structure Store where
  tasks : List NotificationTask
  attempts : List NotificationAttempt
  deriving DecidableEq

/-- Embeds `Store.UpdateTaskStatus`:
`UPDATE notification_tasks SET status = ?, next_attempt_at = ? WHERE task_id = ?`.
The update is unconditional on the current status. -/
def updateTaskStatus (s : Store) (taskID : Str) (status : TaskStatus)
    (nextAttemptAt : Int) : Store :=
  { s with tasks := s.tasks.map fun t =>
      if t.taskId = taskID then
        { t with status := status, nextAttemptAt := nextAttemptAt }
      else t }

/-- Embeds `Store.UpdateTaskRetry`:
`UPDATE notification_tasks SET attempt_count = ?, next_attempt_at = ?, updated_at = ? WHERE task_id = ?`.
The SET list does not include the status column. -/
def updateTaskRetry (s : Store) (taskID : Str) (attemptCount : Nat)
    (nextAttemptAt : Int) (nowT : Int) : Store :=
  { s with tasks := s.tasks.map fun t =>
      if t.taskId = taskID then
        { t with attemptCount := attemptCount, nextAttemptAt := nextAttemptAt,
                 updatedAt := nowT }
      else t }

/-- Embeds `Store.RecordAttempt`: `INSERT INTO notification_attempts ...`. -/
def recordAttempt (s : Store) (a : NotificationAttempt) : Store :=
  { s with attempts := s.attempts ++ [a] }

/-- Embeds `Store.GetAttemptCount`:
`SELECT COUNT(*) FROM notification_attempts WHERE task_id = ?`. -/
def getAttemptCount (s : Store) (taskID : Str) : Nat :=
  (s.attempts.filter fun a => decide (a.taskId = taskID)).length

/-- The WHERE predicate of the claim UPDATE in `Store.GetPendingTasks`:
`status IN (pending, failed, running) AND next_attempt_at <= NOW()`.
The bound status list of the source is (pending, failed, running); the
comment in the source says running is included to recover interrupted
tasks. -/
def dueForClaim (nowT : Int) (t : NotificationTask) : Bool :=
  decide ((t.status = TaskStatus.pending ∨ t.status = TaskStatus.failed ∨
      t.status = TaskStatus.running) ∧ t.nextAttemptAt ≤ nowT)

/-- The sort key `ORDER BY priority DESC, next_attempt_at ASC` used by both
statements of `Store.GetPendingTasks`. -/
def claimOrder (a b : NotificationTask) : Bool :=
  decide (b.priority < a.priority ∨
    (a.priority = b.priority ∧ a.nextAttemptAt ≤ b.nextAttemptAt))

/-- Ordered insertion for `sortForClaim`. -/
def orderedInsertTask (t : NotificationTask) :
    List NotificationTask → List NotificationTask
  | [] => [t]
  | u :: us => if claimOrder t u then t :: u :: us else u :: orderedInsertTask t us

/-- Stable sort realising `ORDER BY priority DESC, next_attempt_at ASC`. -/
def sortForClaim : List NotificationTask → List NotificationTask
  | [] => []
  | t :: ts => orderedInsertTask t (sortForClaim ts)

/-- Embeds `Store.GetPendingTasks` (the work-acquisition operation, the
specification name is ClaimDueTasks). The source issues two separate
statements with no transaction around them:
first `UPDATE notification_tasks SET status = running WHERE status IN
(pending, failed, running) AND next_attempt_at <= NOW() ORDER BY priority
DESC, next_attempt_at ASC LIMIT ?`, then
`SELECT ... WHERE status = running ORDER BY priority DESC, next_attempt_at
ASC LIMIT ?`. The SELECT matches every running row, not only the rows the
UPDATE touched. Returns the post-UPDATE store and the selected rows. -/
def getPendingTasks (s : Store) (nowT : Int) (limit : Nat) :
    Store × List NotificationTask :=
  let updatedIds :=
    ((sortForClaim (s.tasks.filter (dueForClaim nowT))).take limit).map
      (fun t => t.id)
  let tasks2 := s.tasks.map fun t =>
    if t.id ∈ updatedIds then { t with status := TaskStatus.running } else t
  let selected :=
    (sortForClaim (tasks2.filter fun t =>
      decide (t.status = TaskStatus.running))).take limit
  ({ s with tasks := tasks2 }, selected)

/-- Header maps (Go `map[string]string`), modelled as association lists;
lookups return the first matching key. -/
abbrev HeaderMap := List (Str × Str)

/-- Go map indexing `m[k]` with its presence flag. -/
def lookupHeader (m : HeaderMap) (k : Str) : Option Str :=
  (m.find? fun kv => decide (kv.1 = k)).map (fun kv => kv.2)

/-- Embeds the `isSensitiveHeader` helper duplicated in
internal/dispatcher/worker.go, pkg/httpclient and internal/httpapi:
the fixed set of sensitive header names. -/
def isSensitiveHeader (key : Str) : Bool :=
  decide (key = str "Authorization" ∨ key = str "Cookie" ∨
    key = str "Set-Cookie" ∨ key = str "X-Auth-Token" ∨
    key = str "Api-Key" ∨ key = str "Token")

/-- Embeds Go `strings.TrimSpace` on ASCII data. -/
def trimSpace (cs : Str) : Str :=
  ((cs.dropWhile Char.isWhitespace).reverse.dropWhile Char.isWhitespace).reverse

/-- Embeds the placeholder-resolution step of `Worker.sendNotification`:
a value of shape double-brace NAME double-brace is looked up (without the
braces, whitespace trimmed) in the configured sensitive-header mapping;
a hit is replaced by the real value, a miss keeps the literal value. -/
def resolveHeaderValue (sensitive : HeaderMap) (v : Str) : Str :=
  if (str "\x7b\x7b").isPrefixOf v && (str "\x7d\x7d").isSuffixOf v then
    let headerName := trimSpace ((v.take (v.length - 2)).drop 2)
    match lookupHeader sensitive headerName with
    | some realValue => realValue
    | none => v
  else v

/-- The substitution loop of `Worker.sendNotification` over the decoded
header map. -/
def substituteHeaders (sensitive : HeaderMap) (headers : HeaderMap) : HeaderMap :=
  headers.map fun kv => (kv.1, resolveHeaderValue sensitive kv.2)

/-- Embeds the header phase of `Client.Do` (pkg/httpclient): every header
is copied onto the outgoing request, except that a sensitive header name
gets the literal value [REDACTED]; afterwards Content-Type defaults to
application/json when a body is present and none was set. These are the
headers carried by the wire request. -/
def clientWireHeaders (headers : HeaderMap) (bodyLen : Nat) : HeaderMap :=
  let hs := headers.map fun kv =>
    if isSensitiveHeader kv.1 then (kv.1, str "[REDACTED]") else kv
  if lookupHeader hs (str "Content-Type") = none ∧ 0 < bodyLen then
    hs ++ [(str "Content-Type", str "application/json")]
  else hs

/-- Embeds the log-side redaction of `Worker.logHTTPRequest`: sensitive
header values are replaced by [REDACTED] in the log line only. -/
def logSanitizedHeaders (headers : HeaderMap) : HeaderMap :=
  headers.map fun kv =>
    if isSensitiveHeader kv.1 then (kv.1, str "[REDACTED]") else kv

/-- Embeds the classification tail of `Worker.sendNotification`:
success when the response code is in [200, 400); the explicit 429 branch
and the final branch both yield failure. -/
def classifySuccess (statusCode : Nat) : Bool :=
  if 200 ≤ statusCode ∧ statusCode < 400 then true
  else if statusCode = 429 then false
  else false

/-- Result of one HTTP delivery, the (success, statusCode, body, error)
tuple of `Worker.sendNotification` together with the headers placed on the
wire request by `Client.Do`. -/
structure SendResult where
  success : Bool
  statusCode : Nat
  wireHeaders : HeaderMap
  deriving DecidableEq

/-- Embeds `Worker.sendNotification`. Effects are parameters:
`decodeHeaders` stands for `json.Unmarshal` on the stored headers string
(`none` models a decode error, in which case the source logs and continues
with an empty map), and `httpResult` stands for the outcome of the
transport call (`Except.error msg` a transport error, `Except.ok c` a
response with status code `c`). -/
def sendNotification (sensitive : HeaderMap)
    (decodeHeaders : Str → Option HeaderMap) (task : NotificationTask)
    (httpResult : Except Str Nat) : SendResult :=
  let headers0 : HeaderMap :=
    if task.headers = [] then []
    else
      match decodeHeaders task.headers with
      | some m => m
      | none => []
  let headers1 := substituteHeaders sensitive headers0
  let wire := clientWireHeaders headers1 task.body.length
  match httpResult with
  | Except.error _ => { success := false, statusCode := 0, wireHeaders := wire }
  | Except.ok c =>
    { success := classifySuccess c, statusCode := c, wireHeaders := wire }

/-- The 24h backoff cap of `calculateNextAttempt`, in nanoseconds. -/
def maxBackoff : Int := 24 * 60 * 60 * 1000000000

/-- The doubling loop of `calculateNextAttempt`: iterate `attemptCount`
times, doubling the backoff; when a doubling exceeds the 24h cap the value
is clamped to the cap and the loop breaks. The cap is only ever tested
after a doubling, never on the initial value. -/
def backoffLoop (backoff : Int) : Nat → Int
  | 0 => backoff
  | n + 1 =>
    let b := backoff * 2
    if maxBackoff < b then maxBackoff else backoffLoop b n

/-- Embeds `calculateNextAttempt` (internal/dispatcher/worker.go):
exponential backoff with a jitter of plus/minus a tenth derived from the
clock sample `randNano` (the source uses `time.Now().UnixNano()`, which is
non-negative, so Go truncating remainder and the model remainder agree). -/
def calculateNextAttempt (nowT randNano : Int) (attemptCount : Nat)
    (baseBackoff : Int) : Int :=
  let backoff := backoffLoop baseBackoff attemptCount
  let jitter := backoff / 10
  let backoff2 :=
    if 0 < jitter then backoff + (randNano % (jitter * 2) - jitter)
    else backoff
  nowT + backoff2

/-- Embeds `Worker.processTask`: count the recorded attempts, deliver,
append the attempt row (attempt_no is that count plus one), then advance
the task: success updates the status to succeeded; a failure with attempts
remaining calls `updateTaskRetry` with the incremented count and the
computed next-attempt time; an exhausted failure updates the status to
dead. -/
def processTask (sensitive : HeaderMap)
    (decodeHeaders : Str → Option HeaderMap) (retryBackoff : Int)
    (s : Store) (task : NotificationTask) (httpResult : Except Str Nat)
    (nowT randNano latencyMs : Int) : Store :=
  let attemptCount := getAttemptCount s task.taskId
  let res := sendNotification sensitive decodeHeaders task httpResult
  let errorCode : Str :=
    match httpResult with
    | Except.error msg =>
      if msg = str "context deadline exceeded" then str "HTTP_REQUEST_TIMEOUT"
      else str "HTTP_REQUEST_FAILED"
    | Except.ok _ => []
  let errorMessage : Str :=
    match httpResult with
    | Except.error msg => msg
    | Except.ok _ => []
  let attempt : NotificationAttempt :=
    { taskId := task.taskId, attemptNo := attemptCount + 1,
      status := AttemptStatus.sent, httpStatusCode := res.statusCode,
      errorCode := errorCode, errorMessage := errorMessage,
      latencyMs := latencyMs, createdAt := nowT }
  let s1 := recordAttempt s attempt
  if res.success then
    updateTaskStatus s1 task.taskId TaskStatus.succeeded nowT
  else if attemptCount + 1 < task.maxAttempts then
    updateTaskRetry s1 task.taskId (attemptCount + 1)
      (calculateNextAttempt nowT randNano attemptCount retryBackoff) nowT
  else
    updateTaskStatus s1 task.taskId TaskStatus.dead nowT

/-- Splits a string at every occurrence of a separator character, the
behaviour of Go `strings.Split` for one-character separators. -/
def splitOnChar (c : Char) : Str → List Str
  | [] => [[]]
  | x :: xs =>
    match splitOnChar c xs with
    | [] => [[]]
    | r :: rs => if x = c then [] :: r :: rs else (x :: r) :: rs

/-- Splits at the first occurrence of a pattern, returning the part before
and the part after, or `none` when the pattern does not occur. -/
def splitFirst (pat : Str) : Str → Option (Str × Str)
  | [] => if pat = [] then some ([], []) else none
  | x :: xs =>
    if pat.isPrefixOf (x :: xs) then some ([], (x :: xs).drop pat.length)
    else (splitFirst pat xs).map fun pr => (x :: pr.1, pr.2)

/-- Models the `url.Parse` + `.Host` step of `Router.isURLInWhitelist` for
the URL shapes the service receives: in an absolute URL the host is the
text between the scheme separator and the following slash, query or
fragment; a string without a scheme separator parses with an empty host.
Userinfo and bracketed IPv6 authorities are outside the model, as the
remaining source code mishandles them anyway (the port strip below cuts at
the first colon). -/
def parseURLHost (u : Str) : Option Str :=
  match splitFirst (str "://") u with
  | none => some []
  | some pr =>
    some (pr.2.takeWhile fun ch => decide (ch ≠ '/' ∧ ch ≠ '?' ∧ ch ≠ '#'))

/-- The port-stripping step of `Router.isURLInWhitelist`: cut the host at
the first colon. -/
def stripPort (host : Str) : Str := host.takeWhile fun ch => decide (ch ≠ ':')

/-- An IPv4 address as four octets. -/
structure IPv4 where
  a : Nat
  b : Nat
  c : Nat
  d : Nat
  deriving DecidableEq

/-- One dotted-decimal octet: non-empty, decimal digits, no leading zero
(Go rejects leading zeros in addresses since 1.17), value at most 255. -/
def parseOctet (cs : Str) : Option Nat :=
  if cs = [] then none
  else if ¬ (cs.all Char.isDigit) then none
  else if 1 < cs.length ∧ cs.headD ' ' = '0' then none
  else
    let n := cs.foldl (fun acc ch => acc * 10 + (ch.toNat - 48)) 0
    if n ≤ 255 then some n else none

/-- Models `net.ParseIP` on the dotted-quad IPv4 literals in scope; any
other host string (domain names, malformed addresses) yields `none`, the
model of the nil return. IPv6 literals are not modelled: inside a URL they
arrive bracketed and the preceding port strip already mangles them. -/
def parseIP (host : Str) : Option IPv4 :=
  match splitOnChar '.' host with
  | [p, q, r, t] =>
    match parseOctet p, parseOctet q, parseOctet r, parseOctet t with
    | some x, some y, some z, some w => some { a := x, b := y, c := z, d := w }
    | _, _, _, _ => none
  | _ => none

/-- Models `net.IP.IsLoopback` for IPv4: 127.0.0.0/8. -/
def ipIsLoopback (ip : IPv4) : Bool := decide (ip.a = 127)

/-- Models `net.IP.IsPrivate` for IPv4: the RFC1918 blocks 10.0.0.0/8,
172.16.0.0/12 and 192.168.0.0/16. -/
def ipIsPrivate (ip : IPv4) : Bool :=
  decide (ip.a = 10 ∨ (ip.a = 172 ∧ 16 ≤ ip.b ∧ ip.b ≤ 31) ∨
    (ip.a = 192 ∧ ip.b = 168))

/-- Models `net.IP.IsUnspecified` for IPv4: 0.0.0.0. -/
def ipIsUnspecified (ip : IPv4) : Bool :=
  decide (ip.a = 0 ∧ ip.b = 0 ∧ ip.c = 0 ∧ ip.d = 0)

/-- Models `net.IP.IsLinkLocalUnicast` for IPv4: 169.254.0.0/16. -/
def ipIsLinkLocalUnicast (ip : IPv4) : Bool :=
  decide (ip.a = 169 ∧ ip.b = 254)

/-- Models `net.IP.IsLinkLocalMulticast` for IPv4: 224.0.0.0/24. -/
def ipIsLinkLocalMulticast (ip : IPv4) : Bool :=
  decide (ip.a = 224 ∧ ip.b = 0 ∧ ip.c = 0)

/-- Embeds `Router.isURLInWhitelist` (the SSRF / whitelist policy).
The first branch returns true outright — skipping every later check —
when the configured list is empty or is exactly the single entry "*".
Otherwise the host is extracted and port-stripped; a host that parses as
an IP is rejected when loopback, private, unspecified or link-local and
accepted otherwise; a non-IP host is matched against the whitelist, where
entries starting with "*" are suffix matches and other entries are exact
matches. -/
def isURLInWhitelist (allowedDomains : List Str) (targetURL : Str) : Bool :=
  if allowedDomains.length = 0 ∨
      (allowedDomains.length = 1 ∧ allowedDomains.headD [] = str "*") then
    true
  else
    match parseURLHost targetURL with
    | none => false
    | some host0 =>
      let host := stripPort host0
      match parseIP host with
      | some ip =>
        if ipIsLoopback ip then false
        else if ipIsPrivate ip then false
        else if ipIsUnspecified ip || ipIsLinkLocalMulticast ip ||
            ipIsLinkLocalUnicast ip then false
        else true
      | none =>
        allowedDomains.any fun domain =>
          if (str "*").isPrefixOf domain then (domain.drop 1).isSuffixOf host
          else decide (host = domain)

/-- Embeds the validation and URL-policy head of
`Router.handleCreateNotification` together with the final insert: missing
partner or URL gives 400 with no insert, a URL outside the policy gives
403 with no insert, and otherwise the built pending row is inserted and
201 returned. The idempotency branch is bypassed by passing an empty
idempotency key, as in the inputs used here. -/
def handleCreateNotification (allowedDomains : List Str) (s : Store)
    (partnerId targetURL : Str) (newTask : NotificationTask) : Nat × Store :=
  if partnerId = [] ∨ targetURL = [] then (400, s)
  else if ¬ isURLInWhitelist allowedDomains targetURL then (403, s)
  else (201, { s with tasks := s.tasks ++ [newTask] })

/-- Outcome of `Router.handleCancelNotification`: the HTTP status of the
response and, on success, the task status value written into the response
body. -/
inductive CancelResult where
  | notFound
  | badRequest
  | ok (respStatus : TaskStatus)
  deriving DecidableEq

/-- Embeds `Router.handleCancelNotification`: look the task up by task_id
(404 when absent); when its status is neither pending nor running answer
400 and leave the store unchanged; otherwise call `updateTaskStatus` with
the literal `TaskStatusDead` and answer with that status. -/
def handleCancelNotification (s : Store) (taskID : Str) (nowT : Int) :
    CancelResult × Store :=
  match s.tasks.find? fun t => decide (t.taskId = taskID) with
  | none => (CancelResult.notFound, s)
  | some task =>
    if task.status ≠ TaskStatus.pending ∧ task.status ≠ TaskStatus.running then
      (CancelResult.badRequest, s)
    else
      (CancelResult.ok TaskStatus.dead,
       updateTaskStatus s taskID TaskStatus.dead nowT)

/-- Embeds `Router.encodeHeaders` (the ingest placeholder writer): every
sensitive header value is replaced by the placeholder built from the
upper-cased, dash-to-underscore header name wrapped in double braces, and
the mapping from that braced placeholder string to the real value is
appended to the configuration sensitive-header mapping. Returns the
sanitized headers (the map that is JSON-encoded into the stored row) and
the updated configuration mapping. -/
def encodeHeaders (headers : HeaderMap) (sensitiveCfg : HeaderMap) :
    HeaderMap × HeaderMap :=
  headers.foldl
    (fun acc kv =>
      if isSensitiveHeader kv.1 then
        let placeholder :=
          str "\x7b\x7b" ++
            (kv.1.map fun ch => if ch = '-' then '_' else ch).map Char.toUpper
            ++ str "\x7d\x7d"
        (acc.1 ++ [(kv.1, placeholder)], acc.2 ++ [(placeholder, kv.2)])
      else (acc.1 ++ [(kv.1, kv.2)], acc.2))
    ([], sensitiveCfg)

/-- Builder for concrete task rows used in the evaluations below; fields
not under test take the values of the happy-path scenario. -/
def mkTask (id : Nat) (tid : String) (st : TaskStatus) (next : Int)
    (prio : Int) (maxA : Nat) (attC : Nat) : NotificationTask :=
  { id := id, taskId := str tid, partnerId := str "p",
    targetURL := str "https://ok.example.com/hook", httpMethod := str "POST",
    headers := [], body := [], idempotencyKey := [], priority := prio,
    status := st, nextAttemptAt := next, maxAttempts := maxA,
    attemptCount := attC, successCondition := [], createdAt := 0,
    updatedAt := 0 }

/-- A decoder that always fails, the model of `json.Unmarshal` on a
malformed headers string. -/
def decodeAlwaysFails : Str → Option HeaderMap := fun _ => none

/-- Store with a row already claimed by a concurrent claimant (task A,
running) next to a due pending row (task B). -/
def claimStoreC1 : Store :=
  { tasks := [mkTask 1 "A" TaskStatus.running 5 0 3 0,
              mkTask 2 "B" TaskStatus.pending 0 0 3 0],
    attempts := [] }

/-- A freshly claimed running task with two retries left. -/
def retryTask : NotificationTask := mkTask 1 "T" TaskStatus.running 0 0 3 0

/-- Store holding only `retryTask`. -/
def retryStore : Store := { tasks := [retryTask], attempts := [] }

/-- A task already in the terminal status cancelled. -/
def cancelledTask : NotificationTask := mkTask 1 "T" TaskStatus.cancelled 0 0 3 0

/-- Store holding only `cancelledTask`. -/
def cancelledStore : Store := { tasks := [cancelledTask], attempts := [] }

/-- The pending task row the ingest handler would build for a loopback
target URL. -/
def loopbackTask : NotificationTask :=
  { mkTask 1 "L" TaskStatus.pending 0 0 3 0 with
      targetURL := str "http://127.0.0.1/x" }

/-- A task whose stored headers decode to an Authorization header holding
the double-brace TOKEN placeholder. -/
def placeholderTask : NotificationTask :=
  { mkTask 1 "T" TaskStatus.running 0 0 3 0 with headers := str "j" }

/-- Decoder returning that header map. -/
def decodePlaceholder : Str → Option HeaderMap :=
  fun _ => some [(str "Authorization", str "\x7b\x7bTOKEN\x7d\x7d")]

/-- The sensitive-header mapping binding TOKEN to the real secret. -/
def tokenMapping : HeaderMap := [(str "TOKEN", str "secret")]

/-- Store with one pending task A, the cancel target. -/
def pendingStore : Store :=
  { tasks := [mkTask 1 "A" TaskStatus.pending 0 0 3 0], attempts := [] }

/-- Store with one failed (retry-scheduled, non-terminal) task F. -/
def failedStore : Store :=
  { tasks := [mkTask 1 "F" TaskStatus.failed 0 0 3 0], attempts := [] }

/-- A fresh running task (no attempts yet) named F with cap 3. -/
def freshTask : NotificationTask := mkTask 1 "F" TaskStatus.running 0 0 3 0

/-- Store holding only `freshTask` and no attempt rows. -/
def freshStore : Store := { tasks := [freshTask], attempts := [] }

/-- A task whose stored headers string is non-empty and malformed. -/
def badHeadersTask : NotificationTask :=
  { mkTask 1 "T" TaskStatus.running 0 0 3 0 with headers := str "notjson" }

theorem maxBackoff_pos : (0 : Int) < maxBackoff := by norm_num [maxBackoff]

theorem backoffLoop_eq_min (k : Nat) : ∀ b : Int, 0 < b → b ≤ maxBackoff →
    backoffLoop b k = min (b * 2 ^ k) maxBackoff := by
  induction k with
  | zero =>
    intro b hb hcap
    simp [backoffLoop, min_eq_left hcap]
  | succ n ih =>
    intro b hb hcap
    rw [backoffLoop]
    by_cases h : maxBackoff < b * 2
    · rw [if_pos h]
      have h1 : (1 : Int) ≤ 2 ^ n := one_le_pow₀ (by norm_num)
      have h2 : b * 2 ≤ b * 2 * 2 ^ n := le_mul_of_one_le_right (by positivity) h1
      have h3 : maxBackoff ≤ b * 2 ^ (n + 1) := by
        have he : b * 2 * 2 ^ n = b * 2 ^ (n + 1) := by ring
        linarith [he ▸ h2, le_of_lt h]
      rw [min_eq_right h3]
    · rw [if_neg h]
      push_neg at h
      rw [ih (b * 2) (by positivity) h]
      congr 1
      ring

/-- C1: the claim states that `GetPendingTasks` transitions only due
pending or failed rows to running and returns exactly the rows this call
itself transitioned. The code violates the second half: starting from a
store whose task A is already running (held by a concurrent claimant)
beside the due pending task B, the call returns both B and A, although the
only row it transitioned is B — A was running before the call. -/
theorem getPendingTasks_returns_already_running_row :
    ((getPendingTasks claimStoreC1 10 2).2.map fun t => t.taskId) =
      [str "B", str "A"] ∧
    ((claimStoreC1.tasks.filter fun t =>
        decide (t.status = TaskStatus.running)).map fun t => t.taskId) =
      [str "A"] ∧
    (((getPendingTasks claimStoreC1 10 2).1.tasks.filter fun t =>
        decide (t.status = TaskStatus.running)).map fun t => t.taskId) =
      [str "A", str "B"] := by decide

/-- C2: the claim states that the retry operation sets the task status to
failed, so the task leaves running. The SET list of `UpdateTaskRetry`
omits the status column: the operation preserves every status, and
running a full failing attempt with retries left (`processTask` with a 500
response) leaves the task in status running. -/
theorem updateTaskRetry_leaves_status_running :
    (∀ (s : Store) (tid : Str) (n : Nat) (na u : Int),
      ((updateTaskRetry s tid n na u).tasks.map fun t => t.status) =
        s.tasks.map fun t => t.status) ∧
    ((processTask [] decodeAlwaysFails 5000000000 retryStore retryTask
        (Except.ok 500) 0 0 0).tasks.map fun t => t.status) =
      [TaskStatus.running] := by
  refine ⟨?_, by decide⟩
  intro s tid n na u
  simp only [updateTaskRetry, List.map_map]
  apply List.map_congr_left
  intro a _
  by_cases h : a.taskId = tid <;> simp [h]

/-- C3: the claim states that terminal statuses are write-once, so a
cancelled task stays cancelled even when the outcome-recording path later
runs. `UpdateTaskStatus` updates unconditionally on task_id: applied to
the cancelled task it rewrites the status, and a completing in-flight
attempt (`processTask` with a 200 response) turns the cancelled task into
succeeded. -/
theorem updateTaskStatus_overwrites_terminal_status :
    ((updateTaskStatus cancelledStore (str "T") TaskStatus.succeeded 7).tasks.map
        fun t => t.status) = [TaskStatus.succeeded] ∧
    ((processTask [] decodeAlwaysFails 5000000000 cancelledStore cancelledTask
        (Except.ok 200) 9 0 0).tasks.map fun t => t.status) =
      [TaskStatus.succeeded] := by decide

/-- C4: the claim states that loopback, link-local, unspecified and
RFC1918-private IP hosts are rejected with 403 and no insert under every
whitelist, the single-entry wildcard list included. The first branch of
`isURLInWhitelist` accepts everything outright under the wildcard list, so
with the whitelist containing exactly the entry star the loopback and
private targets are accepted and the ingest handler inserts the row with
201. The IP rejections and the whitelist matching do work once the list is
non-trivial. -/
theorem wildcard_whitelist_disables_ssrf_checks :
    isURLInWhitelist [str "*"] (str "http://127.0.0.1/x") = true ∧
    isURLInWhitelist [str "*"] (str "http://10.0.0.5/x") = true ∧
    (handleCreateNotification [str "*"] { tasks := [], attempts := [] }
        (str "p") (str "http://127.0.0.1/x") loopbackTask).1 = 201 ∧
    (handleCreateNotification [str "*"] { tasks := [], attempts := [] }
        (str "p") (str "http://127.0.0.1/x") loopbackTask).2.tasks.length = 1 ∧
    isURLInWhitelist [str "ok.example.com"] (str "http://127.0.0.1/x") = false ∧
    isURLInWhitelist [str "ok.example.com"] (str "http://10.0.0.5/x") = false ∧
    isURLInWhitelist [str "ok.example.com"] (str "http://evil.com/x") = false ∧
    isURLInWhitelist [str "ok.example.com"] (str "http://ok.example.com/hook") =
      true := by decide

/-- C5: the claim states that after placeholder substitution the wire
request carries the real bound value and [REDACTED] appears only in logs.
The substitution loop does produce the real value, but the header phase of
`Client.Do` then writes the literal [REDACTED] into every sensitive-named
header of the outgoing request itself, so the wire value of Authorization
is [REDACTED], not the secret. For placeholders written at ingest the
failure is double: `encodeHeaders` keys the mapping by the braced
placeholder while the dispatch lookup uses the bare name, so the
substitution also misses and the placeholder stays literal. -/
theorem wire_request_redacts_sensitive_header_value :
    substituteHeaders tokenMapping
        [(str "Authorization", str "\x7b\x7bTOKEN\x7d\x7d")] =
      [(str "Authorization", str "secret")] ∧
    lookupHeader (sendNotification tokenMapping decodePlaceholder
        placeholderTask (Except.ok 200)).wireHeaders (str "Authorization") =
      some (str "[REDACTED]") ∧
    (encodeHeaders [(str "Authorization", str "Bearer xyz")] []).2 =
      [(str "\x7b\x7bAUTHORIZATION\x7d\x7d", str "Bearer xyz")] ∧
    resolveHeaderValue (encodeHeaders [(str "Authorization", str "Bearer xyz")] []).2
        (str "\x7b\x7bAUTHORIZATION\x7d\x7d") =
      str "\x7b\x7bAUTHORIZATION\x7d\x7d" := by decide

/-- C6: the claim states that cancel turns every non-terminal task
(pending, running or failed) into cancelled and answers 400 on terminal
tasks. The handler instead writes the status dead (answering with dead in
the body), and its guard admits only pending and running, so a failed,
non-terminal task cannot be cancelled at all; a second cancel then gets
400 with the task left dead, not cancelled. -/
theorem cancel_sets_status_dead_not_cancelled :
    (handleCancelNotification pendingStore (str "A") 5).1 =
      CancelResult.ok TaskStatus.dead ∧
    ((handleCancelNotification pendingStore (str "A") 5).2.tasks.map
        fun t => t.status) = [TaskStatus.dead] ∧
    (handleCancelNotification
        (handleCancelNotification pendingStore (str "A") 5).2 (str "A") 6).1 =
      CancelResult.badRequest ∧
    handleCancelNotification failedStore (str "F") 5 =
      (CancelResult.badRequest, failedStore) := by decide

/-- C7: the claim states that after any completed outcome transition the
attempt_count column equals the number of attempt rows, and every attempt
row gets attempt_no equal to the pre-attempt count plus one. The second
half holds on these runs, and the retry transition does sync the column,
but the terminal transitions go through `UpdateTaskStatus`, whose SET list
never touches attempt_count: after a successful or exhausted attempt the
column stays at its pre-attempt value (0 here) while one attempt row
exists. -/
theorem terminal_transition_leaves_attempt_count_stale :
    (∀ (s : Store) (tid : Str) (st : TaskStatus) (na : Int),
      ((updateTaskStatus s tid st na).tasks.map fun t => t.attemptCount) =
        s.tasks.map fun t => t.attemptCount) ∧
    getAttemptCount (processTask [] decodeAlwaysFails 5000000000 freshStore
        freshTask (Except.ok 200) 3 0 0) (str "F") = 1 ∧
    ((processTask [] decodeAlwaysFails 5000000000 freshStore freshTask
        (Except.ok 200) 3 0 0).tasks.map fun t => t.attemptCount) = [0] ∧
    ((processTask [] decodeAlwaysFails 5000000000 freshStore freshTask
        (Except.ok 200) 3 0 0).attempts.map fun a => a.attemptNo) = [1] ∧
    ((processTask [] decodeAlwaysFails 5000000000 freshStore freshTask
        (Except.ok 500) 3 0 0).tasks.map fun t => t.attemptCount) = [1] := by
  refine ⟨?_, by decide, by decide, by decide, by decide⟩
  intro s tid st na
  simp only [updateTaskStatus, List.map_map]
  apply List.map_congr_left
  intro a _
  by_cases h : a.taskId = tid <;> simp [h]

/-- C8: classification is success exactly for response codes in
[200, 400): the boundary codes behave as claimed (199, 400 and 429 fail;
200, 301 and 399 succeed) and a transport error (the error return of the
client, no response) is always classified as failure. -/
theorem classifySuccess_iff_code_in_200_400 :
    (∀ c : Nat, classifySuccess c = decide (200 ≤ c ∧ c < 400)) ∧
    classifySuccess 199 = false ∧ classifySuccess 400 = false ∧
    classifySuccess 429 = false ∧ classifySuccess 200 = true ∧
    classifySuccess 301 = true ∧ classifySuccess 399 = true ∧
    (∀ (sensitive : HeaderMap) (dec : Str → Option HeaderMap)
        (task : NotificationTask) (msg : Str),
      (sendNotification sensitive dec task (Except.error msg)).success =
        false) := by
  refine ⟨?_, by decide, by decide, by decide, by decide, by decide, by decide, ?_⟩
  · intro c
    by_cases h : 200 ≤ c ∧ c < 400 <;> simp [classifySuccess, h]
  · intro sensitive dec task msg
    rfl

/-- C9 counterexample: the claim asserts the pre-jitter delay equals
min(base times 2 to the k, 24h) for every positive base. With base 90000
seconds (25 hours) and k zero the doubling loop never runs, so the cap is
never applied and the delay is the uncapped base, strictly above the 24h
cap — hence also above the claimed 1.1 times 24h overall bound once the
positive jitter band is added. -/
theorem backoffLoop_uncapped_at_k_zero :
    backoffLoop (90000 * 1000000000) 0 ≠
      min ((90000 * 1000000000) * 2 ^ (0 : Nat)) maxBackoff ∧
    maxBackoff < backoffLoop (90000 * 1000000000) 0 := by decide

/-- C9 (amended): for every non-negative pre-increment attempt count k,
non-negative clock sample and positive base that does not itself exceed
the 24h cap, the pre-jitter delay computed by `calculateNextAttempt`
equals min(base times 2 to the k, 24h), the added jitter stays within one
tenth of that delay on both sides, and the total delay never exceeds 24h
plus a tenth; the cap is only applied inside the doubling loop, so a base
above 24h with k zero escapes it. -/
theorem calculateNextAttempt_spec (base : Int) (k : Nat) (nowT r : Int)
    (hb : 0 < base) (hcap : base ≤ maxBackoff) (hr : 0 ≤ r) :
    backoffLoop base k = min (base * 2 ^ k) maxBackoff ∧
    nowT + backoffLoop base k - backoffLoop base k / 10 ≤
      calculateNextAttempt nowT r k base ∧
    calculateNextAttempt nowT r k base ≤
      nowT + backoffLoop base k + backoffLoop base k / 10 ∧
    calculateNextAttempt nowT r k base - nowT ≤ maxBackoff + maxBackoff / 10 := by
  have hmin := backoffLoop_eq_min k base hb hcap
  have hdpos : 0 < backoffLoop base k := by
    rw [hmin]
    exact lt_min (by positivity) maxBackoff_pos
  have hdle : backoffLoop base k ≤ maxBackoff := by
    rw [hmin]; exact min_le_right _ _
  have hjle : backoffLoop base k / 10 ≤ maxBackoff / 10 :=
    Int.ediv_le_ediv (by norm_num) hdle
  refine ⟨hmin, ?_⟩
  unfold calculateNextAttempt
  set d := backoffLoop base k with hd
  set j := d / 10 with hj
  simp only []
  by_cases hjp : 0 < j
  · have h2j : (0 : Int) < j * 2 := by positivity
    have hm0 : 0 ≤ r % (j * 2) := Int.emod_nonneg r h2j.ne'
    have hm1 : r % (j * 2) < j * 2 := Int.emod_lt_of_pos r h2j
    rw [if_pos hjp]
    refine ⟨by linarith, by linarith, by linarith⟩
  · rw [if_neg hjp]
    have hj0 : 0 ≤ j := Int.ediv_nonneg hdpos.le (by norm_num)
    refine ⟨by linarith, by linarith, by linarith⟩

/-- C9 witness: the amended theorem applied at base 5s, k 1, now 0 and
clock sample 12345. -/
theorem calculateNextAttempt_spec_witness :
    (0 : Int) < 5000000000 ∧ (5000000000 : Int) ≤ maxBackoff ∧
    (0 : Int) ≤ 12345 ∧
    (backoffLoop 5000000000 1 = min (5000000000 * 2 ^ (1 : Nat)) maxBackoff ∧
     0 + backoffLoop 5000000000 1 - backoffLoop 5000000000 1 / 10 ≤
       calculateNextAttempt 0 12345 1 5000000000 ∧
     calculateNextAttempt 0 12345 1 5000000000 ≤
       0 + backoffLoop 5000000000 1 + backoffLoop 5000000000 1 / 10 ∧
     calculateNextAttempt 0 12345 1 5000000000 - 0 ≤
       maxBackoff + maxBackoff / 10) :=
  ⟨by decide, by decide, by decide,
   calculateNextAttempt_spec 5000000000 1 0 12345 (by decide) (by decide)
     (by decide)⟩

/-- C10: when the stored headers string is non-empty but fails to decode,
dispatch proceeds as if the task had no stored headers at all: the wire
request carries only the default headers (none of the task headers) and
the outcome is exactly the classification of the HTTP result, so the
attempt is never failed merely because of the malformed headers. -/
theorem sendNotification_invalid_headers_recovered (sensitive : HeaderMap)
    (dec : Str → Option HeaderMap) (task : NotificationTask)
    (resp : Except Str Nat) (h1 : task.headers ≠ [])
    (h2 : dec task.headers = none) :
    sendNotification sensitive dec task resp =
      sendNotification sensitive dec { task with headers := [] } resp ∧
    (sendNotification sensitive dec task resp).wireHeaders =
      clientWireHeaders [] task.body.length ∧
    (sendNotification sensitive dec task resp).success =
      (match resp with
       | Except.error _ => false
       | Except.ok c => classifySuccess c) := by
  unfold sendNotification
  simp [h1, h2, substituteHeaders]
  cases resp <;> simp

/-- C10 witness: the theorem applied to a task whose headers string is the
literal notjson, with the always-failing decoder and a 200 response. -/
theorem sendNotification_invalid_headers_recovered_witness :
    badHeadersTask.headers ≠ [] ∧
    decodeAlwaysFails badHeadersTask.headers = none ∧
    ((sendNotification [] decodeAlwaysFails badHeadersTask (Except.ok 200)).wireHeaders =
        clientWireHeaders [] badHeadersTask.body.length ∧
      (sendNotification [] decodeAlwaysFails badHeadersTask (Except.ok 200)).success =
        classifySuccess 200) :=
  ⟨by decide, rfl,
   (sendNotification_invalid_headers_recovered [] decodeAlwaysFails
       badHeadersTask (Except.ok 200) (by decide) rfl).2⟩

end ApiNotify
